import Mathlib

/-!
# Verification of the DEX arbitrage backtesting core

Shallow embedding of `src/dex_arbitrage_backtesting/analyzer/arbitrage_analyzer.py`
(class `ArbitrageAnalyzer`). Python floats are modelled as exact rationals (`ℚ`);
Python's `None` / caught-exception returns are modelled with `Option` / `Except`.
A Python `ZeroDivisionError` that the source catches with a `try/except` block is
modelled as an explicit `Except.error` recovered at the place of the handler.

String reporting fields of the source dictionaries (`opportunity_id`,
`execution_notes`) are pure formatting and are omitted from the records.
-/

namespace ArbAnalyzer

/-- One row of the pool-state query in `detect_arbitrage_opportunities`
(arbitrage_analyzer.py lines 56-79): one venue's pool at one block. -/
structure PoolState where
  pair_address : String
  token0_address : String
  token1_address : String
  exchange_name : String
  reserve0 : ℚ
  reserve1 : ℚ
  timestamp : ℕ
  token0_symbol : String
  token1_symbol : String
  token0_decimals : ℕ
  token1_decimals : ℕ
  deriving DecidableEq, Repr

/-- A pool state after the normalization loop (lines 84-88) added the
`reserve0_normalized`, `reserve1_normalized` and `price_token0_in_token1`
keys to the state dictionary. -/
structure NormState extends PoolState where
  reserve0_normalized : ℚ
  reserve1_normalized : ℚ
  price_token0_in_token1 : ℚ
  deriving DecidableEq, Repr

/-- The opportunity dictionary built at lines 117-134. -/
structure Opportunity where
  block_number : ℕ
  timestamp : ℕ
  base_token : String
  quote_token : String
  buy_exchange : String
  sell_exchange : String
  buy_pair_address : String
  sell_pair_address : String
  buy_price : ℚ
  sell_price : ℚ
  spread_bps : ℚ
  spread_percentage : ℚ
  buy_reserve0 : ℚ
  buy_reserve1 : ℚ
  sell_reserve0 : ℚ
  sell_reserve1 : ℚ
  deriving DecidableEq, Repr, Inhabited

/-- The trade-simulation dictionary built at lines 197-219 (string reporting
fields omitted). -/
structure TradeSimulation where
  block_number : ℕ
  timestamp : ℕ
  base_token : String
  quote_token : String
  buy_exchange : String
  sell_exchange : String
  trade_amount_base : ℚ
  buy_price : ℚ
  sell_price : ℚ
  spread_bps : ℚ
  gross_profit : ℚ
  gas_cost_usd : ℚ
  net_profit : ℚ
  is_profitable : Bool
  roi_percentage : ℚ
  buy_fee_bps : ℚ
  sell_fee_bps : ℚ
  buy_price_impact_bps : ℚ
  sell_price_impact_bps : ℚ
  deriving DecidableEq, Repr, Inhabited

/-- The summary dictionary of `get_opportunity_summary` (lines 324-335). -/
structure Summary where
  total_opportunities : ℕ
  total_trades : ℕ
  profitable_trades : ℕ
  profitable_rate : ℚ
  avg_spread_bps : ℚ
  max_spread_bps : ℚ
  total_gross_profit : ℚ
  total_net_profit : ℚ
  total_gas_costs : ℚ
  avg_roi : ℚ
  deriving DecidableEq, Repr

/-- Result dictionary of `ArbitrageAnalyzer.calculate_price_impact`
(lines 248-255). -/
structure PriceImpactResult where
  amount_in : ℚ
  amount_out : ℚ
  price_before : ℚ
  price_after : ℚ
  price_impact : ℚ
  price_impact_bps : ℚ
  deriving DecidableEq, Repr

/-- Embedding of `ArbitrageAnalyzer.calculate_price_impact` (lines 233-259).
The source returns `None` when `reserve_in == 0 or reserve_out == 0`; the body
sits in a `try/except` returning `None`, which also catches the
`ZeroDivisionError` raised when `reserve_in + amount_in == 0` (possible for a
negative `amount_in`); in the remaining cases all divisions are by non-zero
values (`price_before = reserve_out / reserve_in ≠ 0` exactly). -/
def calculate_price_impact (amount_in reserve_in reserve_out : ℚ) :
    Option PriceImpactResult :=
  if reserve_in = 0 ∨ reserve_out = 0 then none
  else if reserve_in + amount_in = 0 then none
  else
    let amount_out := reserve_out * amount_in / (reserve_in + amount_in)
    let price_before := reserve_out / reserve_in
    let price_after := (reserve_out - amount_out) / (reserve_in + amount_in)
    let price_impact := (price_after - price_before) / price_before
    some { amount_in := amount_in
           amount_out := amount_out
           price_before := price_before
           price_after := price_after
           price_impact := price_impact
           price_impact_bps := price_impact * 10000 }

/-- The normalization step of lines 86-88 for one state.  Computing
`price_token0_in_token1` divides by `reserve0_normalized`, so a state with
`reserve0 = 0` raises `ZeroDivisionError` (modelled as `Except.error`),
which is only caught by the handler at line 140 around the whole detection. -/
def normalizeState (state : PoolState) : Except Unit NormState :=
  let reserve0_normalized := state.reserve0 / 10 ^ state.token0_decimals
  let reserve1_normalized := state.reserve1 / 10 ^ state.token1_decimals
  if reserve0_normalized = 0 then Except.error ()
  else Except.ok
    { toPoolState := state
      reserve0_normalized := reserve0_normalized
      reserve1_normalized := reserve1_normalized
      price_token0_in_token1 := reserve1_normalized / reserve0_normalized }

/-- The normalization loop of lines 85-88 over all states (runs to completion
before any pair is compared; the first zero-reserve0 state aborts it). -/
def mapNormalize : List PoolState → Except Unit (List NormState)
  | [] => Except.ok []
  | state :: rest =>
    match normalizeState state with
    | Except.error e => Except.error e
    | Except.ok n =>
      match mapNormalize rest with
      | Except.error e => Except.error e
      | Except.ok l => Except.ok (n :: l)

/-- Lines 113-136: given the buy-side and sell-side states of a candidate
pair, compute `spread_bps = (sell_price - buy_price) / buy_price * 10000` and
emit the opportunity iff `spread_bps >= min_spread`.  A zero buy price raises
`ZeroDivisionError` (caught only by the handler at line 140).  `state1` is the
first state of the pair in list order, whose timestamp and token symbols are
used for the opportunity (lines 119-121). -/
def emitOpp (block_number : ℕ) (min_spread : ℚ)
    (state1 buy_state sell_state : NormState) :
    Except Unit (Option Opportunity) :=
  let buy_price := buy_state.price_token0_in_token1
  let sell_price := sell_state.price_token0_in_token1
  if buy_price = 0 then Except.error ()
  else
    let spread_bps := (sell_price - buy_price) / buy_price * 10000
    if min_spread ≤ spread_bps then
      Except.ok (some
        { block_number := block_number
          timestamp := state1.timestamp
          base_token := state1.token0_symbol
          quote_token := state1.token1_symbol
          buy_exchange := buy_state.exchange_name
          sell_exchange := sell_state.exchange_name
          buy_pair_address := buy_state.pair_address
          sell_pair_address := sell_state.pair_address
          buy_price := buy_price
          sell_price := sell_price
          spread_bps := spread_bps
          spread_percentage := spread_bps / 100
          buy_reserve0 := buy_state.reserve0_normalized
          buy_reserve1 := buy_state.reserve1_normalized
          sell_reserve0 := sell_state.reserve0_normalized
          sell_reserve1 := sell_state.reserve1_normalized })
    else Except.ok none

/-- Lines 96-114: the body of the pair loop for one pair `(state1, state2)`:
a pair is a candidate only if it has the same token0 and token1 addresses and
different exchange names; equal prices emit nothing; otherwise the
lower-priced state is the buy side. -/
def compareStates (block_number : ℕ) (min_spread : ℚ)
    (state1 state2 : NormState) : Except Unit (Option Opportunity) :=
  if state1.token0_address = state2.token0_address ∧
      state1.token1_address = state2.token1_address ∧
      state1.exchange_name ≠ state2.exchange_name then
    if state1.price_token0_in_token1 = state2.price_token0_in_token1 then
      Except.ok none
    else if state1.price_token0_in_token1 < state2.price_token0_in_token1 then
      emitOpp block_number min_spread state1 state1 state2
    else
      emitOpp block_number min_spread state1 state2 state1
  else Except.ok none

/-- The inner loop at line 94: compare `state1` against every later state in
order, appending emitted opportunities. -/
def innerLoop (block_number : ℕ) (min_spread : ℚ) (state1 : NormState) :
    List NormState → Except Unit (List Opportunity)
  | [] => Except.ok []
  | state2 :: rest =>
    match compareStates block_number min_spread state1 state2 with
    | Except.error e => Except.error e
    | Except.ok o =>
      match innerLoop block_number min_spread state1 rest with
      | Except.error e => Except.error e
      | Except.ok l => Except.ok (o.toList ++ l)

/-- The outer loop at line 93 over ordered pairs `(i, j)`, `i < j`. -/
def outerLoop (block_number : ℕ) (min_spread : ℚ) :
    List NormState → Except Unit (List Opportunity)
  | [] => Except.ok []
  | state1 :: rest =>
    match innerLoop block_number min_spread state1 rest with
    | Except.error e => Except.error e
    | Except.ok here =>
      match outerLoop block_number min_spread rest with
      | Except.error e => Except.error e
      | Except.ok later => Except.ok (here ++ later)

/-- Embedding of `ArbitrageAnalyzer.detect_arbitrage_opportunities` (lines 48-142),
with the database query replaced by the `pool_states` argument (the query
result rows).  `self_min_spread_bps` is the analyzer's stored
`self.min_spread_bps` (constructor default 50); line 51 computes the
effective threshold as `min_spread_bps or self.min_spread_bps`, so an
explicitly passed `0` (falsy) is replaced by the stored value.  The
`try/except` at lines 53/140 turns any `ZeroDivisionError` raised while
normalizing or while computing a spread into an empty result list. -/
def detect_arbitrage_opportunities (block_number : ℕ)
    (pool_states : List PoolState) (min_spread_bps self_min_spread_bps : ℚ) :
    List Opportunity :=
  let min_spread := if min_spread_bps = 0 then self_min_spread_bps
    else min_spread_bps
  let body : Except Unit (List Opportunity) :=
    if pool_states.length < 2 then Except.ok []
    else
      match mapNormalize pool_states with
      | Except.error e => Except.error e
      | Except.ok norm => outerLoop block_number min_spread norm
  match body with
  | Except.ok opportunities => opportunities
  | Except.error _ => []

/-- The analyzer field `self.uniswap_fee_bps` (line 38). -/
def uniswap_fee_bps : ℚ := 30

/-- The analyzer field `self.sushiswap_fee_bps` (line 39). -/
def sushiswap_fee_bps : ℚ := 30

/-- Embedding of `ArbitrageAnalyzer.get_exchange_fee` (lines 225-231): dictionary lookup
with default 30 bps for unknown venues. -/
def get_exchange_fee (exchange_name : String) : ℚ :=
  if exchange_name = "Uniswap V2" then uniswap_fee_bps
  else if exchange_name = "SushiSwap" then sushiswap_fee_bps
  else 30

/-- The analyzer field `self.gas_price_gwei` (line 33). -/
def gas_price_gwei : ℚ := 20

/-- The analyzer field `self.gas_limit` (line 34). -/
def gas_limit : ℚ := 500000

/-- The analyzer field `self.eth_price_usd` (line 35). -/
def eth_price_usd : ℚ := 2000

/-- Embedding of `ArbitrageAnalyzer.calculate_gas_cost` (lines 41-46) with the default
gas price: `gas_price * gas_limit * 1e-9 * eth_price_usd`. -/
def calculate_gas_cost : ℚ :=
  gas_price_gwei * gas_limit * (1 / 1000000000) * eth_price_usd

/-- Line 162: `amount_after_buy = trade_amount_base * (1 - buy_fee_bps/10000)`. -/
def amount_after_buy (trade_amount_base buy_fee_bps : ℚ) : ℚ :=
  trade_amount_base * (1 - buy_fee_bps / 10000)

/-- Line 166: `amount_received = amount_after_buy * sell_price *
(1 - sell_fee_bps/10000)`. -/
def amount_received (amount_after_buy sell_price sell_fee_bps : ℚ) : ℚ :=
  amount_after_buy * sell_price * (1 - sell_fee_bps / 10000)

/-- Line 169: `cost_to_buy = trade_amount_base * buy_price`. -/
def cost_to_buy (trade_amount_base buy_price : ℚ) : ℚ :=
  trade_amount_base * buy_price

/-- Embedding of `ArbitrageAnalyzer.simulate_arbitrage_trade` (lines 144-223).
`trade_amount_base? = none` models the `trade_amount_base is None` default
sizing (10% of the smaller reserve, lines 149-154).  With a well-typed
opportunity the body raises no exception, so the `except`-handler's `None`
return is unreachable and the result is always `some`; the dictionary the
source returns is non-empty, hence truthy for the caller's `if` test. -/
def simulate_arbitrage_trade (opportunity : Opportunity)
    (trade_amount_base? : Option ℚ) : Option TradeSimulation :=
  let trade_amount_base :=
    match trade_amount_base? with
    | none => min (opportunity.buy_reserve0 * (1 / 10))
        (opportunity.sell_reserve0 * (1 / 10))
    | some t => t
  let buy_fee_bps := get_exchange_fee opportunity.buy_exchange
  let sell_fee_bps := get_exchange_fee opportunity.sell_exchange
  let amt_after_buy := amount_after_buy trade_amount_base buy_fee_bps
  let amt_received := amount_received amt_after_buy opportunity.sell_price
    sell_fee_bps
  let ctb := cost_to_buy trade_amount_base opportunity.buy_price
  let gross_profit := amt_received - ctb
  let gas_cost_usd := calculate_gas_cost
  let net_profit := gross_profit - gas_cost_usd
  let buy_price_impact := calculate_price_impact trade_amount_base
    opportunity.buy_reserve0 opportunity.buy_reserve1
  let sell_price_impact := calculate_price_impact amt_after_buy
    opportunity.sell_reserve0 opportunity.sell_reserve1
  let roi := if ctb > 0 then net_profit / ctb * 100 else 0
  some
    { block_number := opportunity.block_number
      timestamp := opportunity.timestamp
      base_token := opportunity.base_token
      quote_token := opportunity.quote_token
      buy_exchange := opportunity.buy_exchange
      sell_exchange := opportunity.sell_exchange
      trade_amount_base := trade_amount_base
      buy_price := opportunity.buy_price
      sell_price := opportunity.sell_price
      spread_bps := opportunity.spread_bps
      gross_profit := gross_profit
      gas_cost_usd := gas_cost_usd
      net_profit := net_profit
      is_profitable := decide (net_profit > 0)
      roi_percentage := roi
      buy_fee_bps := buy_fee_bps
      sell_fee_bps := sell_fee_bps
      buy_price_impact_bps :=
        match buy_price_impact with
        | some r => r.price_impact_bps
        | none => 0
      sell_price_impact_bps :=
        match sell_price_impact with
        | some r => r.price_impact_bps
        | none => 0 }

/-- The list of block numbers `range(from_block, to_block + 1)` visited by
`analyze_historical_opportunities` (line 291). -/
def blockRange (from_block to_block : ℕ) : List ℕ :=
  List.range' from_block (to_block + 1 - from_block)

/-- The loop of `analyze_historical_opportunities` (lines 291-310) over a
list of block numbers.  `process` abstracts the body of the per-block `try`
block (lines 293-306: detection, simulation of each opportunity, progress
update), which may raise; the `except` at line 308 catches, logs and
`continue`s, so a failing block contributes nothing and the loop goes on. -/
def runBlocks (process : ℕ → Except Unit (List Opportunity × List TradeSimulation)) :
    List ℕ → List Opportunity × List TradeSimulation
  | [] => ([], [])
  | b :: rest =>
    let here :=
      match process b with
      | Except.error _ => ([], [])
      | Except.ok r => r
    let later := runBlocks process rest
    (here.1 ++ later.1, here.2 ++ later.2)

/-- Embedding of `ArbitrageAnalyzer.analyze_historical_opportunities` (lines 268-318),
parameterized by the per-block processing body (see `runBlocks`); returns the
collected opportunity and trade lists (the source wraps them in DataFrames). -/
def analyze_historical_opportunities
    (process : ℕ → Except Unit (List Opportunity × List TradeSimulation))
    (from_block to_block : ℕ) :
    List Opportunity × List TradeSimulation :=
  runBlocks process (blockRange from_block to_block)

/-- The concrete per-block body of lines 293-302 given a pool-state provider
for the block's database rows: detect (which swallows its own errors), then
simulate every opportunity, keeping truthy (non-`None`) results. -/
def processBlockBody (provider : ℕ → List PoolState)
    (min_spread self_min_spread_bps : ℚ) (block_number : ℕ) :
    Except Unit (List Opportunity × List TradeSimulation) :=
  let opportunities := detect_arbitrage_opportunities block_number
    (provider block_number) min_spread self_min_spread_bps
  Except.ok (opportunities,
    opportunities.filterMap (fun o => simulate_arbitrage_trade o none))

/-- Mean of a pandas numeric column (only ever taken on a non-empty column
in the source). -/
def listMean (xs : List ℚ) : ℚ := xs.sum / xs.length

/-- Max of a pandas numeric column (only ever taken on a non-empty column
in the source). -/
def listMax : List ℚ → ℚ
  | [] => 0
  | x :: rest => rest.foldl max x

/-- Selecting a column from a DataFrame that was built from a list of record
dictionaries: `pd.DataFrame([])` has no columns at all, so selecting any
column from it raises `KeyError`; on a non-empty frame it returns the column
values. -/
def dataFrameColumn {α β : Type} (rows : List α) (col : α → β) :
    Except Unit (List β) :=
  if rows.isEmpty then Except.error () else Except.ok (rows.map col)

/-- Embedding of `ArbitrageAnalyzer.get_opportunity_summary` (lines 320-341).  The entry
`'profitable_trades'` (line 327) evaluates `df_trades['is_profitable']`
unconditionally, which raises `KeyError` when `df_trades` is the empty
DataFrame built from `[]`; the `except` at line 339 then returns the empty
dictionary `{}`, modelled as `none`.  All other column accesses sit inside
`... if len(...) > 0 else 0` conditionals and are reached only when the
frame is non-empty. -/
def get_opportunity_summary (df_opportunities : List Opportunity)
    (df_trades : List TradeSimulation) : Option Summary :=
  match dataFrameColumn df_trades (fun t => t.is_profitable) with
  | Except.error _ => none
  | Except.ok profitable_column =>
    let profitable_trades := (profitable_column.filter (fun b => b = true)).length
    some
      { total_opportunities := df_opportunities.length
        total_trades := df_trades.length
        profitable_trades := profitable_trades
        profitable_rate := if 0 < df_trades.length then
            (profitable_trades : ℚ) / df_trades.length else 0
        avg_spread_bps := if 0 < df_opportunities.length then
            listMean (df_opportunities.map (fun o => o.spread_bps)) else 0
        max_spread_bps := if 0 < df_opportunities.length then
            listMax (df_opportunities.map (fun o => o.spread_bps)) else 0
        total_gross_profit := if 0 < df_trades.length then
            (df_trades.map (fun t => t.gross_profit)).sum else 0
        total_net_profit := if 0 < df_trades.length then
            (df_trades.map (fun t => t.net_profit)).sum else 0
        total_gas_costs := if 0 < df_trades.length then
            (df_trades.map (fun t => t.gas_cost_usd)).sum else 0
        avg_roi := if 0 < df_trades.length then
            listMean (df_trades.map (fun t => t.roi_percentage)) else 0 }

/-- A pool state whose `reserve0` is zero (no defined price). -/
def zeroReservePool : PoolState :=
  { pair_address := "0xAAA"
    token0_address := "0xT0"
    token1_address := "0xT1"
    exchange_name := "Uniswap V2"
    reserve0 := 0
    reserve1 := 1000
    timestamp := 1
    token0_symbol := "WETH"
    token1_symbol := "USDC"
    token0_decimals := 0
    token1_decimals := 0 }

/-- A valid pool on Uniswap V2 with price 2000. -/
def uniPool : PoolState :=
  { pair_address := "0xBBB"
    token0_address := "0xT0"
    token1_address := "0xT1"
    exchange_name := "Uniswap V2"
    reserve0 := 1
    reserve1 := 2000
    timestamp := 1
    token0_symbol := "WETH"
    token1_symbol := "USDC"
    token0_decimals := 0
    token1_decimals := 0 }

/-- A valid pool on SushiSwap with price 2020 (spread vs `uniPool`: 100 bps). -/
def sushiPool : PoolState :=
  { pair_address := "0xCCC"
    token0_address := "0xT0"
    token1_address := "0xT1"
    exchange_name := "SushiSwap"
    reserve0 := 1
    reserve1 := 2020
    timestamp := 1
    token0_symbol := "WETH"
    token1_symbol := "USDC"
    token0_decimals := 0
    token1_decimals := 0 }

/-- A valid pool on SushiSwap with price 2005 (spread vs `uniPool`: 25 bps). -/
def lowSpreadPool : PoolState :=
  { pair_address := "0xDDD"
    token0_address := "0xT0"
    token1_address := "0xT1"
    exchange_name := "SushiSwap"
    reserve0 := 1
    reserve1 := 2005
    timestamp := 1
    token0_symbol := "WETH"
    token1_symbol := "USDC"
    token0_decimals := 0
    token1_decimals := 0 }

/-- The single opportunity detected between `uniPool` and `sushiPool` at
threshold 50 bps. -/
def uniSushiOpp : Opportunity :=
  (detect_arbitrage_opportunities 1 [uniPool, sushiPool] 50 50).headI

/-- A concrete opportunity matching the spec's example simulation input:
buy price 2000, sell price 2020, both venue fees 30 bps. -/
def exampleOpp : Opportunity :=
  { block_number := 1
    timestamp := 1
    base_token := "WETH"
    quote_token := "USDC"
    buy_exchange := "Uniswap V2"
    sell_exchange := "SushiSwap"
    buy_pair_address := "0xBBB"
    sell_pair_address := "0xCCC"
    buy_price := 2000
    sell_price := 2020
    spread_bps := 100
    spread_percentage := 1
    buy_reserve0 := 1000
    buy_reserve1 := 2000000
    sell_reserve0 := 1000
    sell_reserve1 := 2020000 }

end ArbAnalyzer

open ArbAnalyzer

/-- Claim C1. For every `amount_in ≥ 0` and reserves `reserve_in > 0`,
`reserve_out > 0`, `calculate_price_impact` returns a result whose fields are
exactly `amount_out = reserve_out * amount_in / (reserve_in + amount_in)`,
`price_before = reserve_out / reserve_in`,
`price_after = (reserve_out - amount_out) / (reserve_in + amount_in)`,
`price_impact = (price_after - price_before) / price_before` and
`price_impact_bps = price_impact * 10000`. -/
theorem C1_price_impact_formulas (amount_in reserve_in reserve_out : ℚ)
    (ha : 0 ≤ amount_in) (hin : 0 < reserve_in) (hout : 0 < reserve_out) :
    calculate_price_impact amount_in reserve_in reserve_out =
      some { amount_in := amount_in
             amount_out := reserve_out * amount_in / (reserve_in + amount_in)
             price_before := reserve_out / reserve_in
             price_after := (reserve_out -
                 reserve_out * amount_in / (reserve_in + amount_in)) /
               (reserve_in + amount_in)
             price_impact := ((reserve_out -
                   reserve_out * amount_in / (reserve_in + amount_in)) /
                 (reserve_in + amount_in) - reserve_out / reserve_in) /
               (reserve_out / reserve_in)
             price_impact_bps := (((reserve_out -
                     reserve_out * amount_in / (reserve_in + amount_in)) /
                   (reserve_in + amount_in) - reserve_out / reserve_in) /
                 (reserve_out / reserve_in)) * 10000 } := by
  have h1 : ¬(reserve_in = 0 ∨ reserve_out = 0) := by
    push_neg
    exact ⟨ne_of_gt hin, ne_of_gt hout⟩
  have h2 : ¬(reserve_in + amount_in = 0) :=
    ne_of_gt (by linarith)
  simp only [calculate_price_impact, h1, h2, if_false, if_true, ite_false]

/-- Witness for C1 at `amount_in = 5`, `reserve_in = 100`, `reserve_out = 400`. -/
theorem C1_price_impact_formulas_witness :
    calculate_price_impact 5 100 400 =
      some { amount_in := 5
             amount_out := 400 * 5 / (100 + 5)
             price_before := 400 / 100
             price_after := (400 - 400 * 5 / (100 + 5)) / (100 + 5)
             price_impact := ((400 - 400 * 5 / (100 + 5)) / (100 + 5) -
                 400 / 100) / (400 / 100)
             price_impact_bps := (((400 - 400 * 5 / (100 + 5)) / (100 + 5) -
                   400 / 100) / (400 / 100)) * 10000 } :=
  C1_price_impact_formulas 5 100 400 (by norm_num) (by norm_num) (by norm_num)

/-- Claim C4. For every `amount_in`, if `reserve_in = 0` or `reserve_out = 0`
then `calculate_price_impact` signals "no result" (`none`) and never raises. -/
theorem C4_zero_reserves_none (amount_in reserve_in reserve_out : ℚ)
    (h : reserve_in = 0 ∨ reserve_out = 0) :
    calculate_price_impact amount_in reserve_in reserve_out = none := by
  simp only [calculate_price_impact, h, if_true, ite_true]

/-- Witness for C4 at `amount_in = 7`, `reserve_in = 0`, `reserve_out = 5`. -/
theorem C4_zero_reserves_none_witness :
    calculate_price_impact 7 0 5 = none :=
  C4_zero_reserves_none 7 0 5 (Or.inl rfl)

/-- Opportunities emitted by `emitOpp` meet the threshold, record the spread
formula, and (given the buy side is priced below the sell side) have strictly
ordered prices. -/
theorem emitOpp_ok_mem {blk : ℕ} {m : ℚ} {s1 b s : NormState}
    {r : Option Opportunity} {o : Opportunity}
    (hlt : b.price_token0_in_token1 < s.price_token0_in_token1)
    (h : emitOpp blk m s1 b s = Except.ok r) (ho : o ∈ r.toList) :
    m ≤ o.spread_bps ∧ o.buy_price < o.sell_price ∧
      o.spread_bps = (o.sell_price - o.buy_price) / o.buy_price * 10000 := by
  simp only [emitOpp] at h
  split at h
  · exact Except.noConfusion h
  · split at h
    · cases h
      simp only [Option.toList_some, List.mem_singleton] at ho
      subst ho
      exact ⟨by assumption, hlt, rfl⟩
    · cases h
      simp at ho

/-- Opportunities emitted by one pair comparison meet the threshold and have
strictly ordered prices. -/
theorem compareStates_ok_mem {blk : ℕ} {m : ℚ} {s1 s2 : NormState}
    {r : Option Opportunity} {o : Opportunity}
    (h : compareStates blk m s1 s2 = Except.ok r) (ho : o ∈ r.toList) :
    m ≤ o.spread_bps ∧ o.buy_price < o.sell_price ∧
      o.spread_bps = (o.sell_price - o.buy_price) / o.buy_price * 10000 := by
  simp only [compareStates] at h
  split at h
  · split at h
    · cases h; simp at ho
    · split at h
      · exact emitOpp_ok_mem (by assumption) h ho
      · refine emitOpp_ok_mem ?_ h ho
        rename_i hne hnlt
        exact lt_of_le_of_ne (not_lt.mp hnlt) (fun he => hne he.symm)
  · cases h; simp at ho

/-- All opportunities collected by the inner pair loop meet the threshold and
have strictly ordered prices. -/
theorem innerLoop_ok_mem {blk : ℕ} {m : ℚ} {s1 : NormState}
    {l : List NormState} {res : List Opportunity} {o : Opportunity}
    (h : innerLoop blk m s1 l = Except.ok res) (ho : o ∈ res) :
    m ≤ o.spread_bps ∧ o.buy_price < o.sell_price ∧
      o.spread_bps = (o.sell_price - o.buy_price) / o.buy_price * 10000 := by
  induction l generalizing res with
  | nil => cases h; simp at ho
  | cons s2 rest ih =>
    simp only [innerLoop] at h
    split at h
    · exact Except.noConfusion h
    · rename_i o1 heq1
      split at h
      · exact Except.noConfusion h
      · rename_i l1 heq2
        cases h
        rcases List.mem_append.mp ho with hmem | hmem
        · exact compareStates_ok_mem heq1 hmem
        · exact ih heq2 hmem

/-- All opportunities collected by the outer pair loop meet the threshold and
have strictly ordered prices. -/
theorem outerLoop_ok_mem {blk : ℕ} {m : ℚ}
    {l : List NormState} {res : List Opportunity} {o : Opportunity}
    (h : outerLoop blk m l = Except.ok res) (ho : o ∈ res) :
    m ≤ o.spread_bps ∧ o.buy_price < o.sell_price ∧
      o.spread_bps = (o.sell_price - o.buy_price) / o.buy_price * 10000 := by
  induction l generalizing res with
  | nil => cases h; simp at ho
  | cons s1 rest ih =>
    simp only [outerLoop] at h
    split at h
    · exact Except.noConfusion h
    · rename_i here heq1
      split at h
      · exact Except.noConfusion h
      · rename_i later heq2
        cases h
        rcases List.mem_append.mp ho with hmem | hmem
        · exact innerLoop_ok_mem heq1 hmem
        · exact ih heq2 hmem

/-- Every opportunity returned by the detector meets the effective threshold
`min_spread_bps or self.min_spread_bps` and has strictly ordered prices. -/
theorem detect_mem {blk : ℕ} {states : List PoolState} {m self : ℚ}
    {o : Opportunity}
    (ho : o ∈ detect_arbitrage_opportunities blk states m self) :
    (if m = 0 then self else m) ≤ o.spread_bps ∧
      o.buy_price < o.sell_price ∧
      o.spread_bps = (o.sell_price - o.buy_price) / o.buy_price * 10000 := by
  simp only [detect_arbitrage_opportunities] at ho
  split at ho
  · rename_i l heq
    split at heq
    · cases heq; simp at ho
    · split at heq
      · exact Except.noConfusion heq
      · rename_i norm hnorm
        exact outerLoop_ok_mem heq ho
  · simp at ho

/-- A state with `reserve0 = 0` makes the normalization step raise. -/
theorem normalizeState_zero {s : PoolState} (h : s.reserve0 = 0) :
    normalizeState s = Except.error () := by
  simp only [normalizeState, h, zero_div, if_pos]

/-- The normalization loop fails as soon as any state fails to normalize. -/
theorem mapNormalize_error {states : List PoolState} {s : PoolState}
    (hs : s ∈ states) (h : normalizeState s = Except.error ()) :
    mapNormalize states = Except.error () := by
  induction states with
  | nil => simp at hs
  | cons a rest ih =>
    simp only [mapNormalize]
    rcases List.mem_cons.mp hs with rfl | hmem
    · rw [h]
    · split
      · rename_i e _
        cases e; rfl
      · rw [ih hmem]

/-- Claim C3, counterexample. With the zero-`reserve0` state present, the whole
call returns `[]` — the valid `uniPool`/`sushiPool` pair (emitted when the
zero-reserve state is absent) is *not* emitted, contrary to the claim that
only the zero-reserve state is excluded. -/
theorem C3_counterexample :
    detect_arbitrage_opportunities 1 [zeroReservePool, uniPool, sushiPool]
        50 50 = [] ∧
    detect_arbitrage_opportunities 1 [uniPool, sushiPool] 50 50 ≠ [] := by
  constructor
  · norm_num [detect_arbitrage_opportunities, mapNormalize, normalizeState,
      zeroReservePool, uniPool, sushiPool]
  · norm_num [detect_arbitrage_opportunities, mapNormalize, normalizeState,
      outerLoop, innerLoop, compareStates, emitOpp, uniPool, sushiPool,
      show ("Uniswap V2" : String) ≠ "SushiSwap" from by decide]

/-- Claim C3, amended. If any supplied pool state has a zero `reserve0`, the
`ZeroDivisionError` raised while computing its price aborts the whole
detection pass: the caught exception makes `detect_arbitrage_opportunities`
return `[]` for the block (no remaining pair is compared), and the call does
not raise. -/
theorem C3_amended (block_number : ℕ) (pool_states : List PoolState)
    (min_spread_bps self_min_spread_bps : ℚ)
    (h : ∃ s ∈ pool_states, s.reserve0 = 0) :
    detect_arbitrage_opportunities block_number pool_states min_spread_bps
      self_min_spread_bps = [] := by
  obtain ⟨s, hs, hz⟩ := h
  by_cases hlen : pool_states.length < 2
  · simp [detect_arbitrage_opportunities, hlen]
  · simp [detect_arbitrage_opportunities, hlen,
      mapNormalize_error hs (normalizeState_zero hz)]

/-- Witness for the amended C3 at a concrete two-state list. -/
theorem C3_amended_witness :
    detect_arbitrage_opportunities 1 [zeroReservePool, uniPool] 50 50 = [] :=
  C3_amended 1 [zeroReservePool, uniPool] 50 50
    ⟨zeroReservePool, List.mem_cons_self _ _, rfl⟩

/-- Claim C5. Every opportunity the detector returns has
`spread_bps ≥ min_spread_bps` (for a non-negative stored default),
`buy_price < sell_price` strictly (so an equal-price pair is never emitted),
and `spread_bps = (sell_price - buy_price) / buy_price * 10000`. -/
theorem C5_min_spread (block_number : ℕ) (pool_states : List PoolState)
    (min_spread_bps self_min_spread_bps : ℚ)
    (hself : 0 ≤ self_min_spread_bps) (o : Opportunity)
    (ho : o ∈ detect_arbitrage_opportunities block_number pool_states
      min_spread_bps self_min_spread_bps) :
    min_spread_bps ≤ o.spread_bps ∧ o.buy_price < o.sell_price ∧
      o.spread_bps = (o.sell_price - o.buy_price) / o.buy_price * 10000 := by
  obtain ⟨h1, h2, h3⟩ := detect_mem ho
  refine ⟨?_, h2, h3⟩
  by_cases hm : min_spread_bps = 0
  · rw [if_pos hm] at h1
    rw [hm]
    linarith
  · rw [if_neg hm] at h1
    exact h1

/-- Witness for C5: the opportunity detected between `uniPool` and
`sushiPool` at threshold 50. -/
theorem C5_min_spread_witness :
    (50 : ℚ) ≤ uniSushiOpp.spread_bps ∧
      uniSushiOpp.buy_price < uniSushiOpp.sell_price ∧
      uniSushiOpp.spread_bps =
        (uniSushiOpp.sell_price - uniSushiOpp.buy_price) /
          uniSushiOpp.buy_price * 10000 :=
  C5_min_spread 1 [uniPool, sushiPool] 50 50 (by norm_num) uniSushiOpp
    (by norm_num [uniSushiOpp, detect_arbitrage_opportunities, mapNormalize,
      normalizeState, outerLoop, innerLoop, compareStates, emitOpp,
      uniPool, sushiPool, List.headI,
      show ("Uniswap V2" : String) ≠ "SushiSwap" from by decide])

/-- Claim C10. An explicitly passed `min_spread_bps = 0` is falsy, so
`min_spread_bps or self.min_spread_bps` replaces it by the stored default:
the call behaves exactly as if the stored default had been passed, and a
concrete pair with spread 25 bps (strictly between 0 and the default 50) is
not emitted at requested threshold 0, although it is emitted at requested
threshold 25. -/
theorem C10_zero_threshold_uses_default :
    (∀ (block_number : ℕ) (pool_states : List PoolState)
        (self_min_spread_bps : ℚ),
      detect_arbitrage_opportunities block_number pool_states 0
          self_min_spread_bps =
        detect_arbitrage_opportunities block_number pool_states
          self_min_spread_bps self_min_spread_bps) ∧
    detect_arbitrage_opportunities 1 [uniPool, lowSpreadPool] 0 50 = [] ∧
    (detect_arbitrage_opportunities 1 [uniPool, lowSpreadPool] 25 50).map
        Opportunity.spread_bps = [25] ∧
    (0 : ℚ) < 25 ∧ (25 : ℚ) < 50 := by
  refine ⟨?_, ?_, ?_, by norm_num, by norm_num⟩
  · intro block_number pool_states self_min_spread_bps
    simp [detect_arbitrage_opportunities, ite_self]
  · norm_num [detect_arbitrage_opportunities, mapNormalize, normalizeState,
      outerLoop, innerLoop, compareStates, emitOpp, uniPool, lowSpreadPool,
      show ("Uniswap V2" : String) ≠ "SushiSwap" from by decide]
  · norm_num [detect_arbitrage_opportunities, mapNormalize, normalizeState,
      outerLoop, innerLoop, compareStates, emitOpp, uniPool, lowSpreadPool,
      show ("Uniswap V2" : String) ≠ "SushiSwap" from by decide]

/-- Claim C2. Every trade simulation returned by `simulate_arbitrage_trade`
satisfies `net_profit = gross_profit - gas_cost_usd` exactly,
`is_profitable = true` iff `net_profit > 0`, and `roi_percentage =
net_profit / cost_to_buy * 100` when `cost_to_buy > 0` and `0` otherwise. -/
theorem C2_trade_invariants (opportunity : Opportunity)
    (trade_amount_base? : Option ℚ) (t : TradeSimulation)
    (h : simulate_arbitrage_trade opportunity trade_amount_base? = some t) :
    t.net_profit = t.gross_profit - t.gas_cost_usd ∧
      (t.is_profitable = true ↔ 0 < t.net_profit) ∧
      t.roi_percentage =
        if 0 < cost_to_buy t.trade_amount_base t.buy_price then
          t.net_profit / cost_to_buy t.trade_amount_base t.buy_price * 100
        else 0 := by
  simp only [simulate_arbitrage_trade, Option.some.injEq] at h
  subst h
  refine ⟨rfl, ?_, rfl⟩
  simp [decide_eq_true_eq]

/-- Witness for C2 on the spec's example opportunity at trade size 100. -/
theorem C2_trade_invariants_witness :
    ((simulate_arbitrage_trade exampleOpp (some 100)).getD default).net_profit =
        ((simulate_arbitrage_trade exampleOpp (some 100)).getD
            default).gross_profit -
          ((simulate_arbitrage_trade exampleOpp (some 100)).getD
            default).gas_cost_usd ∧
      (((simulate_arbitrage_trade exampleOpp (some 100)).getD
            default).is_profitable = true ↔
        0 < ((simulate_arbitrage_trade exampleOpp (some 100)).getD
            default).net_profit) ∧
      ((simulate_arbitrage_trade exampleOpp (some 100)).getD
            default).roi_percentage =
        if 0 < cost_to_buy ((simulate_arbitrage_trade exampleOpp
              (some 100)).getD default).trade_amount_base
            ((simulate_arbitrage_trade exampleOpp (some 100)).getD
              default).buy_price then
          ((simulate_arbitrage_trade exampleOpp (some 100)).getD
              default).net_profit /
            cost_to_buy ((simulate_arbitrage_trade exampleOpp
                (some 100)).getD default).trade_amount_base
              ((simulate_arbitrage_trade exampleOpp (some 100)).getD
                default).buy_price * 100
        else 0 :=
  C2_trade_invariants exampleOpp (some 100) _ rfl

/-- Claim C8, counterexample. At the claim's concrete input the code yields
`amount_received = 99.7 * 2020 * 0.997 = 200789.818`, so
`gross_profit = 789.818` and `net_profit = 769.818` — not `≈ 836.8` and
`≈ 816.8` as claimed (both off by ≈ 46.98). -/
theorem C8_counterexample :
    ¬ |((simulate_arbitrage_trade exampleOpp (some 100)).map
          TradeSimulation.gross_profit).getD 0 - 8368 / 10| < 40 ∧
    ¬ |((simulate_arbitrage_trade exampleOpp (some 100)).map
          TradeSimulation.net_profit).getD 0 - 8168 / 10| < 40 := by
  constructor
  · norm_num [simulate_arbitrage_trade, exampleOpp, get_exchange_fee,
      uniswap_fee_bps, sushiswap_fee_bps, amount_after_buy, amount_received,
      cost_to_buy, calculate_gas_cost, gas_price_gwei, gas_limit,
      eth_price_usd, abs_lt]
  · norm_num [simulate_arbitrage_trade, exampleOpp, get_exchange_fee,
      uniswap_fee_bps, sushiswap_fee_bps, amount_after_buy, amount_received,
      cost_to_buy, calculate_gas_cost, gas_price_gwei, gas_limit,
      eth_price_usd, abs_lt]

/-- Claim C8, amended. For `trade_amount_base = 100`, `buy_price = 2000`,
`sell_price = 2020`, fees 30 bps per leg and `gas_cost_usd = 20`:
`cost_to_buy = 200000` and `amount_after_buy = 99.7` as claimed, but
`amount_received = 99.7 * 2020 * 0.997 = 200789.818` exactly, so
`gross_profit = 789.818 ≈ 789.82`, `net_profit = 769.818 ≈ 769.82`, and
`is_profitable = true`. -/
theorem C8_amended :
    amount_after_buy 100 30 = 997 / 10 ∧
    cost_to_buy 100 2000 = 200000 ∧
    amount_received (997 / 10) 2020 30 = 100394909 / 500 ∧
    calculate_gas_cost = 20 ∧
    ((simulate_arbitrage_trade exampleOpp (some 100)).map
        TradeSimulation.gross_profit).getD 0 = 394909 / 500 ∧
    ((simulate_arbitrage_trade exampleOpp (some 100)).map
        TradeSimulation.net_profit).getD 0 = 384909 / 500 ∧
    ((simulate_arbitrage_trade exampleOpp (some 100)).map
        TradeSimulation.is_profitable).getD false = true ∧
    |(100394909 / 500 : ℚ) - 20078982 / 100| < 1 / 100 ∧
    |(394909 / 500 : ℚ) - 78982 / 100| < 1 / 100 ∧
    |(384909 / 500 : ℚ) - 76982 / 100| < 1 / 100 := by
  refine ⟨by norm_num [amount_after_buy], by norm_num [cost_to_buy],
    by norm_num [amount_received],
    by norm_num [calculate_gas_cost, gas_price_gwei, gas_limit, eth_price_usd],
    ?_, ?_, ?_, by norm_num [abs_lt], by norm_num [abs_lt],
    by norm_num [abs_lt]⟩ <;>
  norm_num [simulate_arbitrage_trade, exampleOpp, get_exchange_fee,
    uniswap_fee_bps, sushiswap_fee_bps, amount_after_buy, amount_received,
    cost_to_buy, calculate_gas_cost, gas_price_gwei, gas_limit, eth_price_usd]

/-- The collected results of the block loop are the concatenation, in the
given block order, of each block's recovered result (a failing block
contributing nothing). -/
theorem runBlocks_eq
    (process : ℕ → Except Unit (List Opportunity × List TradeSimulation))
    (l : List ℕ) :
    runBlocks process l =
      (l.flatMap fun b =>
         match process b with
         | Except.ok r => r.1
         | Except.error _ => [],
       l.flatMap fun b =>
         match process b with
         | Except.ok r => r.2
         | Except.error _ => []) := by
  induction l with
  | nil => rfl
  | cons b rest ih =>
    simp only [runBlocks, ih, List.flatMap_cons]
    cases process b <;> simp

/-- Claim C6. Failure isolation in the backtest runner: the result over a block
range is the block-ascending concatenation of each block's result, where a
block whose processing raises contributes nothing — so replacing every
failing block by an empty success leaves the output unchanged, and every
non-failing block's opportunities and trades are still returned in
block-ascending order. -/
theorem C6_runner_failure_isolation :
    (∀ (process : ℕ → Except Unit (List Opportunity × List TradeSimulation))
        (from_block to_block : ℕ),
      analyze_historical_opportunities process from_block to_block =
        ((blockRange from_block to_block).flatMap fun b =>
           match process b with
           | Except.ok r => r.1
           | Except.error _ => [],
         (blockRange from_block to_block).flatMap fun b =>
           match process b with
           | Except.ok r => r.2
           | Except.error _ => [])) ∧
    (∀ (process : ℕ → Except Unit (List Opportunity × List TradeSimulation))
        (from_block to_block : ℕ),
      analyze_historical_opportunities
          (fun b =>
            match process b with
            | Except.ok r => Except.ok r
            | Except.error _ => Except.ok ([], []))
          from_block to_block =
        analyze_historical_opportunities process from_block to_block) := by
  constructor
  · intro process from_block to_block
    exact runBlocks_eq process (blockRange from_block to_block)
  · intro process from_block to_block
    unfold analyze_historical_opportunities
    rw [runBlocks_eq, runBlocks_eq]
    congr 1 <;> · apply List.flatMap_congr; intro b _; cases process b <;> rfl

/-- Claim C7. On the empty DataFrames built from empty collections,
`get_opportunity_summary` does not return a summary with zero rates: the
`'profitable_trades'` entry selects the `is_profitable` column from a
zero-column frame, the resulting `KeyError` is caught, and the function
returns the empty dictionary (`none`) — so `profitable_rate` and `avg_roi`
are absent rather than 0 (the call still never raises). -/
theorem C7_empty_summary_is_empty_dict :
    get_opportunity_summary [] [] = none := rfl

/-- Claim C9, counterexample. At `reserve_in = 1000`, `reserve_out = 2000000`,
`amount_in = 10` the code yields `price_after = 20000000/10201 ≈ 1960.59`,
not `≈ 1961.58` as claimed (off by ≈ 0.99), and
`price_impact_bps = -2010000/10201 ≈ -197.04`, not `≈ -192.1` (off by ≈ 4.94). -/
theorem C9_counterexample :
    ¬ |((calculate_price_impact 10 1000 2000000).map
          PriceImpactResult.price_after).getD 0 - 196158 / 100| < 1 / 2 ∧
    ¬ |((calculate_price_impact 10 1000 2000000).map
          PriceImpactResult.price_impact_bps).getD 0 - (-1921 / 10)| < 4 := by
  norm_num [calculate_price_impact, abs_lt]

/-- Claim C9, amended. For `reserve_in = 1000`, `reserve_out = 2000000`,
`amount_in = 10`, `calculate_price_impact` yields `amount_out = 2000000/101
≈ 19801.98`, `price_before = 2000` (both as the claim states), but
`price_after = 20000000/10201 ≈ 1960.59` and
`price_impact_bps = -2010000/10201 ≈ -197.04`. -/
theorem C9_amended :
    calculate_price_impact 10 1000 2000000 =
      some { amount_in := 10
             amount_out := 2000000 / 101
             price_before := 2000
             price_after := 20000000 / 10201
             price_impact := -201 / 10201
             price_impact_bps := -2010000 / 10201 } ∧
    |(2000000 / 101 : ℚ) - 1980198 / 100| < 1 / 100 ∧
    |(20000000 / 10201 : ℚ) - 196059 / 100| < 1 / 100 ∧
    |(-2010000 / 10201 : ℚ) - (-19704 / 100)| < 1 / 100 := by
  refine ⟨?_, by norm_num [abs_lt], by norm_num [abs_lt], by norm_num [abs_lt]⟩
  norm_num [calculate_price_impact]
